import Mathlib

/-!
Shallow embedding of the jobs-store server (`src/server.js`): the GitHub-blob
backed job collection, its read and write helpers, the enrichment helpers, and
the `/api/jobs` HTTP handlers, together with proofs about the specified
behaviour. Remote interactions are made explicit: every function that talks to
the backend receives the blob state it observes at that interaction, so that
interleaved writers can be expressed by passing different states to successive
interactions of one request.
-/

namespace Server

/-- A JavaScript value as it occurs in the loosely typed record fields
(`userId` may arrive as a number or a string in the request body and in the
stored JSON). `undef` models an absent property. -/
inductive JsValue where
  | str (s : String)
  | num (n : Int)
  | undef
  deriving DecidableEq

/-- JavaScript `String(v)` on the values of `JsValue`. -/
def jsToString : JsValue → String
  | JsValue.str s => s
  | JsValue.num n => toString n
  | JsValue.undef => "undefined"

/-- JavaScript truthiness on `JsValue`: `undefined`, the empty string and the
number 0 are falsy. -/
def jsTruthy : JsValue → Bool
  | JsValue.str s => s != ""
  | JsValue.num n => n != 0
  | JsValue.undef => false

/-- A job record, with the exact fields the POST handler's object literal
builds (server.js lines 342-361). -/
structure Record where
  id : Int
  title : String
  description : String
  companyName : String
  location : Option String
  domain : Option String
  workType : Option String
  employmentType : Option String
  userType : Option String
  salaryRange : Option String
  applyLink : Option String
  careerLink : Option String
  companySummary : Option String
  isSpam : Bool
  userId : JsValue
  createdBy : String
  createdAt : String
  updatedAt : String
  deriving DecidableEq

/-- The decoded view of the stored blob `data/jobs.json`: either content whose
`JSON.parse` yields an array of records, or content on which `JSON.parse`
throws. -/
inductive BlobContent where
  | jobs (l : List Record)
  | invalid
  deriving DecidableEq

/-- The remote file together with its version token. GitHub's content SHA is
modelled as a counter that the backend bumps on every accepted write. -/
structure BlobState where
  content : BlobContent
  sha : Nat
  deriving DecidableEq

/-- The observable outcome of the contents-API GET: the file with its sha, a
404 for an absent file, or a network/5xx failure (axios throws in the last
two cases). -/
inductive GetResult where
  | ok (content : BlobContent) (sha : Nat)
  | notFound
  | serverError
  deriving DecidableEq

/-- The GET outcome determined by a blob state over a healthy network. -/
def githubGet : Option BlobState → GetResult
  | some b => GetResult.ok b.content b.sha
  | none => GetResult.notFound

/-- server.js lines 115-137: GET the file, base64-decode, `JSON.parse`. The
single catch-all returns `[]` on every failure alike: an absent file (axios
throws on the 404), a network/5xx failure, and unparsable content
(`JSON.parse` throws). The response sha is never returned to the caller. -/
def readJobsFromGithub : GetResult → List Record
  | GetResult.ok (BlobContent.jobs l) _ => l
  | GetResult.ok BlobContent.invalid _ => []
  | GetResult.notFound => []
  | GetResult.serverError => []

/-- The error a failing `updateGithubJobs` rethrows to its caller. -/
inductive UpdateError where
  | getFailed
  | putTargetMissing
  | versionConflict
  deriving DecidableEq

/-- Outcome of `updateGithubJobs`: `ok` is the `return true` path carrying the
blob state the accepted PUT produced; `thrown` is the `throw error` path. -/
inductive UpdateResult where
  | ok (newState : BlobState)
  | thrown (e : UpdateError)
  deriving DecidableEq

/-- server.js lines 140-179: first GET the file again to obtain its current
sha (`currentFile.data.sha`), then PUT the serialized `jobs` with exactly that
sha. `sGet` is the blob state at the internal GET and `sPut` the state at the
PUT; they are separate parameters because another writer may commit in
between. The PUT is accepted precisely when the supplied sha still matches,
and then bumps the sha. Any failure is rethrown (`throw error`). Note the
function receives no version token from its caller: the sha it supplies is
the one from its own GET. -/
def updateGithubJobs (jobs : List Record) (sGet sPut : Option BlobState) : UpdateResult :=
  match sGet with
  | none => UpdateResult.thrown UpdateError.getFailed
  | some b1 =>
    match sPut with
    | none => UpdateResult.thrown UpdateError.putTargetMissing
    | some b2 =>
      if b2.sha = b1.sha then UpdateResult.ok ⟨BlobContent.jobs jobs, b2.sha + 1⟩
      else UpdateResult.thrown UpdateError.versionConflict

/-- The sha `updateGithubJobs` supplies to its PUT (`sha: currentFile.data.sha`,
server.js line 162): the sha of its own GET, when that GET succeeded. -/
def updateGithubJobsSuppliedSha (sGet : Option BlobState) : Option Nat :=
  Option.map BlobState.sha sGet

/-- How many PUT attempts one call of `updateGithubJobs` performs: none when
its GET already threw, otherwise exactly one; there is no retry loop. -/
def updateGithubJobsPutAttempts (sGet : Option BlobState) : Nat :=
  match sGet with
  | none => 0
  | some _ => 1

/-- JavaScript `Math.max(...l)` for the nonempty lists it is applied to
(server.js line 343 guards with `jobs.length > 0`; the empty case is
unreachable there). -/
def jsMathMax (l : List Int) : Int :=
  l.foldl max ((l.head?).getD 0)

/-- server.js line 343: `jobs.length > 0 ? Math.max(...jobs.map(job => job.id)) + 1 : 1`. -/
def newJobId (jobs : List Record) : Int :=
  if jobs.length > 0 then jsMathMax (jobs.map Record.id) + 1 else 1

/-- JavaScript `v || null` on an optional string (`companySummary || null`,
server.js line 355): the empty string is falsy and collapses to null. -/
def jsOrNull : Option String → Option String
  | some s => if s = "" then none else some s
  | none => none

/-- JavaScript `v || d` where `v` is an optional string and `d` a string
(`createdBy || req.user.username`, server.js line 358). -/
def jsOrStr (v : Option String) (d : String) : String :=
  match v with
  | some s => if s = "" then d else s
  | none => d

/-- JavaScript `v || d` on `JsValue` (`userId || req.user.userId`,
server.js line 357). -/
def jsOrVal (v d : JsValue) : JsValue :=
  if jsTruthy v then v else d

/-- The authenticated caller, as placed in `req.user` by the JWT middleware. -/
structure AuthUser where
  userId : Int
  username : String
  deriving DecidableEq

/-- The observable outcome of the POST /api/jobs handler: the 400 validation
response, the 500 catch response, or the 201 response carrying the new job
(the blob state the accepted write produced is carried for the proofs). -/
inductive HandlerResult where
  | badRequest
  | serverError
  | created (job : Record) (st : BlobState)
  deriving DecidableEq

/-- The object literal of server.js lines 342-361, over the destructured body
fields, enrichment results, authenticated user, the two timestamp reads and
the jobs list read beforehand. `careerLink` stands for the value the name of
that line would have; in the handler as written the name is unbound (see
`postJobsHandler`). -/
def builtJob (title description companyName : String)
    (location domain workType employmentType userType salaryRange applyLink careerLink : Option String)
    (bodyUserId : JsValue) (bodyCreatedBy : Option String)
    (companySummary : Option String) (isSpam : Bool)
    (user : AuthUser) (createdAtNow updatedAtNow : String)
    (jobs : List Record) : Record :=
  { id := newJobId jobs
    title := title
    description := description
    companyName := companyName
    location := location
    domain := domain
    workType := workType
    employmentType := employmentType
    userType := userType
    salaryRange := salaryRange
    applyLink := applyLink
    careerLink := careerLink
    companySummary := jsOrNull companySummary
    isSpam := isSpam
    userId := jsOrVal bodyUserId (JsValue.num user.userId)
    createdBy := jsOrStr bodyCreatedBy user.username
    createdAt := createdAtNow
    updatedAt := updatedAtNow }

/-- server.js lines 338-380, the read-modify-write tail of the POST handler:
read the jobs (`readJobsFromGithub`), build `newJob`, `jobs.push(newJob)`,
`updateGithubJobs(jobs)`, respond 201 with the new job; if the update throws,
the catch responds 500. `sRead` is the blob state at the read, `sGet` and
`sPut` the states at the update's internal GET and PUT. The pair returned is
(response, blob state afterwards). In the handler as written this code is
unreachable (evaluation throws earlier on the unbound `careerLink`, see
`postJobsHandler`); it is embedded on its own because it is the store-level
append the specification describes. -/
def createJobCore (title description companyName : String)
    (location domain workType employmentType userType salaryRange applyLink careerLink : Option String)
    (bodyUserId : JsValue) (bodyCreatedBy : Option String)
    (companySummary : Option String) (isSpam : Bool)
    (user : AuthUser) (createdAtNow updatedAtNow : String)
    (sRead sGet sPut : Option BlobState) : HandlerResult × Option BlobState :=
  let jobs := readJobsFromGithub (githubGet sRead)
  let newJob := builtJob title description companyName location domain workType
    employmentType userType salaryRange applyLink careerLink bodyUserId bodyCreatedBy
    companySummary isSpam user createdAtNow updatedAtNow jobs
  match updateGithubJobs (jobs ++ [newJob]) sGet sPut with
  | UpdateResult.ok st => (HandlerResult.created newJob st, some st)
  | UpdateResult.thrown _ => (HandlerResult.serverError, sPut)

/-- The fields the POST handler destructures from `req.body`
(server.js lines 294-307). `careerLink` is deliberately absent: the
destructuring does not bind it. -/
structure PostRequest where
  title : Option String
  description : Option String
  companyName : Option String
  location : Option String
  domain : Option String
  workType : Option String
  employmentType : Option String
  userType : Option String
  salaryRange : Option String
  applyLink : Option String
  userId : JsValue
  createdBy : Option String
  deriving DecidableEq

/-- JavaScript falsiness of an optional string body field: absent or empty. -/
def jsFalsyStr : Option String → Bool
  | none => true
  | some s => s == ""

/-- server.js lines 292-381, the POST /api/jobs handler after authentication.
If `!title || !description || !companyName` it returns 400 (line 310) before
any backend call. Otherwise evaluation reaches `if (careerLink)` at line 320;
`careerLink` was never destructured from the body (lines 294-307) and is not
bound anywhere else, so this read of an undeclared identifier throws
`ReferenceError`, the catch at line 374 runs, and the response is 500. In
both branches no backend read or write happens, so the blob state is returned
unchanged. -/
def postJobsHandler (req : PostRequest) (s : Option BlobState) :
    HandlerResult × Option BlobState :=
  if jsFalsyStr req.title || jsFalsyStr req.description || jsFalsyStr req.companyName then
    (HandlerResult.badRequest, s)
  else
    (HandlerResult.serverError, s)

/-- server.js lines 274-290 (and its duplicate registration at lines 396-412,
identical body; Express serves the first): read the jobs and, when the
`userId` query parameter is truthy (a nonempty string), filter by
`String(job.userId) === String(userId)`; otherwise return all jobs. The query
parameter, when present, is already a string, so `String(userId)` is it. -/
def getJobsHandler (s : Option BlobState) (userIdParam : Option String) : List Record :=
  let jobs := readJobsFromGithub (githubGet s)
  match userIdParam with
  | some q => if q == "" then jobs else jobs.filter (fun job => jsToString job.userId == q)
  | none => jobs

/-- What the scraping attempt of `scrapeAndSummarizeCareerPage` observes once
the URL check has passed: either some call in the try block threw (axios
fetch, Gemini call), or the fetch succeeded yielding the cleaned page text
and the model produced a summary text. -/
inductive ScrapeOutcome where
  | thrown
  | fetched (cleanedText : String) (aiSummary : String)
  deriving DecidableEq

/-- server.js lines 19-88: return null when the URL is absent or does not
start with "http", when the cleaned text is shorter than 50 characters, when
the model returns an empty summary, and when anything in the try block throws
(the catch returns null); otherwise return the summary. -/
def scrapeAndSummarizeCareerPage (url : Option String) (outcome : ScrapeOutcome) :
    Option String :=
  match url with
  | none => none
  | some u =>
    if u.startsWith "http" then
      match outcome with
      | ScrapeOutcome.thrown => none
      | ScrapeOutcome.fetched cleanedText aiSummary =>
        if cleanedText.length < 50 then none
        else if aiSummary = "" then none
        else some aiSummary
    else none

/-- What the spam-detection call observes: the model call threw, or it
responded with some text. -/
inductive SpamOutcome where
  | thrown
  | responded (text : String)
  deriving DecidableEq

/-- server.js lines 91-111: ask the model, compare
`result.response.text().trim().toLowerCase() === 'true'`; the catch returns
false on any error. -/
def detectSpamJob (outcome : SpamOutcome) : Bool :=
  match outcome with
  | SpamOutcome.thrown => false
  | SpamOutcome.responded t => t.trim.toLower == "true"

/-- The outcomes the specification prescribes for `readAll`. -/
inductive ReadAllSpecOutcome where
  | ok (jobs : List Record)
  | decodeError
  | backendUnavailable
  deriving DecidableEq

/-- Written from the specification's words, for comparison with the code:
readAll fails with DecodeError if the blob content is not a valid JSON array
of Records, with BackendUnavailable if the remote call fails, and an
absent blob decodes to an empty Collection. -/
def readAllSpec : GetResult → ReadAllSpecOutcome
  | GetResult.ok (BlobContent.jobs l) _ => ReadAllSpecOutcome.ok l
  | GetResult.ok BlobContent.invalid _ => ReadAllSpecOutcome.decodeError
  | GetResult.notFound => ReadAllSpecOutcome.ok []
  | GetResult.serverError => ReadAllSpecOutcome.backendUnavailable

/-- The code's `readJobsFromGithub`, embedded into the specification's outcome
type: it never throws, so every outcome is an `ok`. -/
def readAllCode (r : GetResult) : ReadAllSpecOutcome :=
  ReadAllSpecOutcome.ok (readJobsFromGithub r)

/-- Written from the specification's words: the backend accepts a conditional
write exactly when the supplied token matches the file's current token. Used
to compare the token the code supplies with the token of step 1. -/
def specPutAccepts (expected : Option Nat) (s : Option BlobState) : Bool :=
  match s, expected with
  | some b, some t => t == b.sha
  | _, _ => false

/-- A concrete stored record used by the witnesses and counterexamples. -/
def sampleJob1 : Record :=
  { id := 1, title := "Backend engineer", description := "d1", companyName := "Acme"
    location := none, domain := none, workType := none, employmentType := none
    userType := none, salaryRange := none, applyLink := none, careerLink := none
    companySummary := none, isSpam := false, userId := JsValue.num 42
    createdBy := "alice", createdAt := "2024-01-01T00:00:00.000Z"
    updatedAt := "2024-01-01T00:00:00.000Z" }

/-- A second concrete record, as committed by a concurrent appender. -/
def sampleJob2 : Record :=
  { id := 2, title := "Data analyst", description := "d2", companyName := "Globex"
    location := none, domain := none, workType := none, employmentType := none
    userType := none, salaryRange := none, applyLink := none, careerLink := none
    companySummary := none, isSpam := false, userId := JsValue.str "7"
    createdBy := "bob", createdAt := "2024-01-02T00:00:00.000Z"
    updatedAt := "2024-01-02T00:00:00.000Z" }

/-- Blob state holding only `sampleJob1`, at sha 0. -/
def blobA : Option BlobState := some ⟨BlobContent.jobs [sampleJob1], 0⟩

/-- Blob state after a concurrent appender committed `sampleJob2`, at sha 1. -/
def blobB : Option BlobState := some ⟨BlobContent.jobs [sampleJob1, sampleJob2], 1⟩

/-- The record the interleaved append of the counterexamples builds when its
read saw only `sampleJob1`. -/
def lateJob : Record :=
  builtJob "A" "d" "C" none none none none none none none none JsValue.undef none
    none false ⟨7, "carol"⟩ "t0" "t0" [sampleJob1]

/-- A concrete POST body that passes validation. -/
def sampleRequest : PostRequest :=
  { title := some "T", description := some "D", companyName := some "C"
    location := none, domain := none, workType := none, employmentType := none
    userType := none, salaryRange := none, applyLink := none
    userId := JsValue.undef, createdBy := none }

/-- A concrete POST body with the title missing. -/
def sampleBadRequest : PostRequest :=
  { title := none, description := some "D", companyName := some "C"
    location := none, domain := none, workType := none, employmentType := none
    userType := none, salaryRange := none, applyLink := none
    userId := JsValue.undef, createdBy := none }

/-- Folding `max` over a list never goes below the initial accumulator. -/
theorem foldl_max_init_le (l : List Int) (a : Int) : a ≤ l.foldl max a := by
  induction l generalizing a with
  | nil => exact le_refl a
  | cons x xs ih =>
    simp only [List.foldl_cons]
    exact le_trans (le_max_left a x) (ih (max a x))

/-- Folding `max` over a list dominates every member. -/
theorem foldl_max_mem_le (l : List Int) : ∀ a x : Int, x ∈ l → x ≤ l.foldl max a := by
  induction l with
  | nil => intro a x hx; cases hx
  | cons y ys ih =>
    intro a x hx
    simp only [List.foldl_cons]
    rcases List.mem_cons.mp hx with h | h
    · subst h
      exact le_trans (le_max_right a x) (foldl_max_init_le ys (max a x))
    · exact ih (max a y) x h

/-- Folding `max` over a list yields the accumulator or a member. -/
theorem foldl_max_self_or_mem (l : List Int) :
    ∀ a : Int, l.foldl max a = a ∨ l.foldl max a ∈ l := by
  induction l with
  | nil => intro a; exact Or.inl rfl
  | cons x xs ih =>
    intro a
    simp only [List.foldl_cons]
    rcases ih (max a x) with h | h
    · rw [h]
      rcases max_choice a x with h2 | h2
      · exact Or.inl h2
      · right; rw [h2]; exact List.mem_cons_self x xs
    · exact Or.inr (List.mem_cons_of_mem x h)

/-- `jsMathMax` dominates every member of its argument. -/
theorem jsMathMax_mem_le (l : List Int) (x : Int) (hx : x ∈ l) : x ≤ jsMathMax l :=
  foldl_max_mem_le l ((l.head?).getD 0) x hx

/-- On a nonempty list, `jsMathMax` is one of the members. -/
theorem jsMathMax_mem (l : List Int) (hl : l ≠ []) : jsMathMax l ∈ l := by
  cases l with
  | nil => exact absurd rfl hl
  | cons y ys =>
    unfold jsMathMax
    simp only [List.head?_cons, Option.getD_some]
    rcases foldl_max_self_or_mem (y :: ys) y with h | h
    · rw [h]; exact List.mem_cons_self y ys
    · exact h

/-- The id the handler would assign exceeds every id of the list it read. -/
theorem newJobId_lt (jobs : List Record) (r : Record) (hr : r ∈ jobs) :
    r.id < newJobId jobs := by
  have hne : jobs.length > 0 := List.length_pos.mpr (List.ne_nil_of_mem hr)
  unfold newJobId
  rw [if_pos hne]
  have hle : r.id ≤ jsMathMax (jobs.map Record.id) :=
    jsMathMax_mem_le _ _ (List.mem_map_of_mem Record.id hr)
  omega

/-- On a nonempty list the assigned id is the id of some member plus one. -/
theorem newJobId_eq_succ_max (jobs : List Record) (hne : jobs ≠ []) :
    ∃ r, r ∈ jobs ∧ newJobId jobs = r.id + 1 := by
  have hmapne : jobs.map Record.id ≠ [] := by
    simp only [ne_eq, List.map_eq_nil_iff]
    exact hne
  have hmem : jsMathMax (jobs.map Record.id) ∈ jobs.map Record.id :=
    jsMathMax_mem _ hmapne
  rcases List.mem_map.mp hmem with ⟨r, hr, hid⟩
  refine ⟨r, hr, ?_⟩
  unfold newJobId
  rw [if_pos (List.length_pos.mpr hne), hid]

/-- Appending a record carrying the freshly assigned id keeps the ids
duplicate-free. -/
theorem newJobId_nodup (jobs : List Record) (j : Record) (hid : j.id = newJobId jobs)
    (hnodup : (jobs.map Record.id).Nodup) : ((jobs ++ [j]).map Record.id).Nodup := by
  rw [List.map_append]
  refine List.Nodup.append hnodup (List.nodup_singleton j.id) ?_
  intro a ha hb
  rcases List.mem_map.mp ha with ⟨r, hr, rfl⟩
  have hb2 : r.id = j.id := by simpa using hb
  have hlt := newJobId_lt jobs r hr
  rw [hid] at hb2
  omega

/-- An accepted `updateGithubJobs` stored exactly the serialized jobs it was
handed. -/
theorem updateGithubJobs_ok_content (jobs : List Record) (sGet sPut : Option BlobState)
    (st : BlobState) (h : updateGithubJobs jobs sGet sPut = UpdateResult.ok st) :
    st.content = BlobContent.jobs jobs := by
  cases sGet with
  | none =>
    simp only [updateGithubJobs] at h
    exact UpdateResult.noConfusion h
  | some b1 =>
    cases sPut with
    | none =>
      simp only [updateGithubJobs] at h
      exact UpdateResult.noConfusion h
    | some b2 =>
      simp only [updateGithubJobs] at h
      by_cases hc : b2.sha = b1.sha
      · rw [if_pos hc] at h
        injection h with h2
        rw [← h2]
      · rw [if_neg hc] at h
        exact UpdateResult.noConfusion h

/-- `updateGithubJobs` accepts exactly when the blob did not change between
its own GET and its PUT, and then stores the serialized jobs with a bumped
sha. -/
theorem updateGithubJobs_ok_iff (jobs : List Record) (b1 b2 : BlobState) (st : BlobState) :
    updateGithubJobs jobs (some b1) (some b2) = UpdateResult.ok st ↔
      b2.sha = b1.sha ∧ st = ⟨BlobContent.jobs jobs, b2.sha + 1⟩ := by
  simp only [updateGithubJobs]
  by_cases hc : b2.sha = b1.sha
  · rw [if_pos hc]
    constructor
    · intro he
      injection he with he2
      exact ⟨hc, he2.symm⟩
    · rintro ⟨-, rfl⟩
      rfl
  · rw [if_neg hc]
    constructor
    · intro he
      exact UpdateResult.noConfusion he
    · rintro ⟨hs, -⟩
      exact absurd hs hc

/-- Anatomy of a 201 response of the append tail: the returned job is the
record built from the read snapshot, the committed blob holds that snapshot
with the new job appended, and the resulting state is the committed one. -/
theorem createJobCore_created
    (title description companyName : String)
    (location domain workType employmentType userType salaryRange applyLink careerLink :
      Option String)
    (bodyUserId : JsValue) (bodyCreatedBy : Option String)
    (companySummary : Option String) (isSpam : Bool)
    (user : AuthUser) (createdAtNow updatedAtNow : String)
    (sRead sGet sPut : Option BlobState)
    (job : Record) (st : BlobState) (stOut : Option BlobState)
    (h : createJobCore title description companyName location domain workType employmentType
      userType salaryRange applyLink careerLink bodyUserId bodyCreatedBy companySummary isSpam
      user createdAtNow updatedAtNow sRead sGet sPut = (HandlerResult.created job st, stOut)) :
    job = builtJob title description companyName location domain workType employmentType
      userType salaryRange applyLink careerLink bodyUserId bodyCreatedBy companySummary isSpam
      user createdAtNow updatedAtNow (readJobsFromGithub (githubGet sRead)) ∧
    st.content = BlobContent.jobs (readJobsFromGithub (githubGet sRead) ++ [job]) ∧
    stOut = some st := by
  simp only [createJobCore] at h
  split at h
  · rename_i st2 heq
    injection h with h1 h2
    injection h1 with hjob hst
    subst hjob
    subst hst
    refine ⟨rfl, ?_, h2.symm⟩
    exact updateGithubJobs_ok_content _ _ _ _ heq
  · rename_i e heq
    injection h with h1 h2
    exact HandlerResult.noConfusion h1

/-- C3: for every authenticated POST /api/jobs request whose body carries
truthy title, description and companyName, evaluation reaches the unbound
identifier careerLink before any enrichment call or backend access, throws,
and the handler responds 500 with the blob state unchanged — in particular it
never responds 201 and appends no Record. -/
theorem claim_C3 (req : PostRequest) (s : Option BlobState)
    (ht : jsFalsyStr req.title = false)
    (hd : jsFalsyStr req.description = false)
    (hc : jsFalsyStr req.companyName = false) :
    postJobsHandler req s = (HandlerResult.serverError, s) := by
  unfold postJobsHandler
  rw [ht, hd, hc]
  rfl

/-- C3 witness: a concrete well-formed request observes the 500 response and
an unchanged blob. -/
theorem claim_C3_witness :
    postJobsHandler sampleRequest blobA = (HandlerResult.serverError, blobA) :=
  claim_C3 sampleRequest blobA (by decide) (by decide) (by decide)

/-- C8: when title, description or companyName is missing or empty, the POST
handler responds 400 with the blob state unchanged, and the response is
computed without consulting the backend (it is the same for every blob
state). -/
theorem claim_C8 (req : PostRequest) (s sAlt : Option BlobState)
    (h : jsFalsyStr req.title = true ∨ jsFalsyStr req.description = true ∨
      jsFalsyStr req.companyName = true) :
    postJobsHandler req s = (HandlerResult.badRequest, s) ∧
    (postJobsHandler req s).1 = (postJobsHandler req sAlt).1 := by
  have hmain : ∀ t : Option BlobState, postJobsHandler req t = (HandlerResult.badRequest, t) := by
    intro t
    rcases h with h | h | h <;> simp [postJobsHandler, h]
  refine ⟨hmain s, ?_⟩
  rw [hmain s, hmain sAlt]

/-- C8 witness: a concrete request with a missing title is rejected with 400
on two different blob states alike. -/
theorem claim_C8_witness :
    postJobsHandler sampleBadRequest blobA = (HandlerResult.badRequest, blobA) ∧
    (postJobsHandler sampleBadRequest blobA).1 = (postJobsHandler sampleBadRequest blobB).1 :=
  claim_C8 sampleBadRequest blobA blobB (Or.inl (by decide))

/-- C5 counterexample: on unparsable blob content the code returns the empty
collection, where the specification prescribes DecodeError; on a failing
remote call it also returns the empty collection, where the specification
prescribes BackendUnavailable. Neither error is ever surfaced. -/
theorem claim_C5_counterexample :
    readAllCode (GetResult.ok BlobContent.invalid 0) = ReadAllSpecOutcome.ok [] ∧
    readAllSpec (GetResult.ok BlobContent.invalid 0) = ReadAllSpecOutcome.decodeError ∧
    readAllCode GetResult.serverError = ReadAllSpecOutcome.ok [] ∧
    readAllSpec GetResult.serverError = ReadAllSpecOutcome.backendUnavailable ∧
    ReadAllSpecOutcome.ok ([] : List Record) ≠ ReadAllSpecOutcome.decodeError ∧
    ReadAllSpecOutcome.ok ([] : List Record) ≠ ReadAllSpecOutcome.backendUnavailable := by
  decide

/-- C5 amended: readAll never fails. A blob holding a valid JSON array is
returned as its records, and an unparsable blob, an absent blob and a failing
remote call all yield the empty collection alike. -/
theorem claim_C5_amended (l : List Record) (sha : Nat) :
    readJobsFromGithub (GetResult.ok (BlobContent.jobs l) sha) = l ∧
    readJobsFromGithub (GetResult.ok BlobContent.invalid sha) = [] ∧
    readJobsFromGithub GetResult.notFound = [] ∧
    readJobsFromGithub GetResult.serverError = [] :=
  ⟨rfl, rfl, rfl, rfl⟩

/-- C5 witness: the amended statement at a concrete stored collection. -/
theorem claim_C5_witness :
    readJobsFromGithub (GetResult.ok (BlobContent.jobs [sampleJob1]) 0) = [sampleJob1] ∧
    readJobsFromGithub (GetResult.ok BlobContent.invalid 0) = [] ∧
    readJobsFromGithub GetResult.notFound = [] ∧
    readJobsFromGithub GetResult.serverError = [] :=
  claim_C5_amended [sampleJob1] 0

/-- C10 counterexample: the userId query parameter can be supplied as the
empty string; the handler then takes the falsy branch and returns every
record, not the records whose stringified userId equals the parameter. -/
theorem claim_C10_counterexample :
    getJobsHandler blobA (some "") = [sampleJob1] ∧
    (readJobsFromGithub (githubGet blobA)).filter
      (fun job => jsToString job.userId == "") = [] := by
  decide

/-- C10 amended: when the userId query parameter is a nonempty string the
returned sequence is exactly the records whose userId converted to a string
equals it (a stored numeric 42 matches the query string "42"); when the
parameter is absent or the empty string, all records are returned. -/
theorem claim_C10_amended (s : Option BlobState) (q : String) (hq : q ≠ "") :
    getJobsHandler s (some q) =
      (readJobsFromGithub (githubGet s)).filter (fun job => jsToString job.userId == q) ∧
    getJobsHandler s none = readJobsFromGithub (githubGet s) ∧
    getJobsHandler s (some "") = readJobsFromGithub (githubGet s) ∧
    jsToString (JsValue.num 42) = "42" := by
  refine ⟨?_, rfl, rfl, rfl⟩
  have hbeq : (q == "") = false := beq_eq_false_iff_ne.mpr hq
  simp only [getJobsHandler]
  rw [hbeq]
  rfl

/-- C10 witness: the amended statement at the query string "42" against the
blob holding `sampleJob1`, whose stored userId is the number 42. -/
theorem claim_C10_witness :
    getJobsHandler blobA (some "42") =
      (readJobsFromGithub (githubGet blobA)).filter (fun job => jsToString job.userId == "42") ∧
    getJobsHandler blobA none = readJobsFromGithub (githubGet blobA) ∧
    getJobsHandler blobA (some "") = readJobsFromGithub (githubGet blobA) ∧
    jsToString (JsValue.num 42) = "42" :=
  claim_C10_amended blobA "42" (by decide)

/-- C7: the id assigned to a newly appended record is 1 on the empty
collection; on a nonempty collection it is strictly greater than every
existing id and equals the id of some existing record plus one (that record
being one carrying the maximal id); consequently a collection with
duplicate-free ids keeps its ids duplicate-free when the new record is
appended. -/
theorem claim_C7 (jobs : List Record) (j : Record)
    (hid : j.id = newJobId jobs)
    (hnodup : (jobs.map Record.id).Nodup) :
    newJobId [] = 1 ∧
    (∀ r ∈ jobs, r.id < newJobId jobs) ∧
    (jobs ≠ [] → ∃ r, r ∈ jobs ∧ newJobId jobs = r.id + 1) ∧
    ((jobs ++ [j]).map Record.id).Nodup := by
  refine ⟨rfl, ?_, ?_, ?_⟩
  · intro r hr
    exact newJobId_lt jobs r hr
  · intro hne
    exact newJobId_eq_succ_max jobs hne
  · exact newJobId_nodup jobs j hid hnodup

/-- C7 witness: appending to the one-record collection assigns id 2 and keeps
the ids duplicate-free. -/
theorem claim_C7_witness :
    newJobId [] = 1 ∧
    (∀ r ∈ [sampleJob1], r.id < newJobId [sampleJob1]) ∧
    ([sampleJob1] ≠ [] → ∃ r, r ∈ [sampleJob1] ∧ newJobId [sampleJob1] = r.id + 1) ∧
    (([sampleJob1] ++ [sampleJob2]).map Record.id).Nodup :=
  claim_C7 [sampleJob1] sampleJob2 (by decide) (by decide)

/-- C6: when the enrichment calls fail, the career-page summarization returns
null and the spam classification returns false (neither propagates an error),
and a record appended with those results has companySummary null and isSpam
false; the append is not aborted by the failure. -/
theorem claim_C6 (url : Option String)
    (title description companyName : String)
    (location domain workType employmentType userType salaryRange applyLink careerLink :
      Option String)
    (bodyUserId : JsValue) (bodyCreatedBy : Option String)
    (user : AuthUser) (createdAtNow updatedAtNow : String)
    (sRead sGet sPut : Option BlobState)
    (job : Record) (st : BlobState) (stOut : Option BlobState)
    (h : createJobCore title description companyName location domain workType employmentType
      userType salaryRange applyLink careerLink bodyUserId bodyCreatedBy
      (scrapeAndSummarizeCareerPage url ScrapeOutcome.thrown)
      (detectSpamJob SpamOutcome.thrown)
      user createdAtNow updatedAtNow sRead sGet sPut = (HandlerResult.created job st, stOut)) :
    scrapeAndSummarizeCareerPage url ScrapeOutcome.thrown = none ∧
    detectSpamJob SpamOutcome.thrown = false ∧
    job.companySummary = none ∧
    job.isSpam = false := by
  have hscrape : scrapeAndSummarizeCareerPage url ScrapeOutcome.thrown = none := by
    cases url with
    | none => rfl
    | some u => simp [scrapeAndSummarizeCareerPage]
  obtain ⟨hjob, -, -⟩ := createJobCore_created title description companyName location domain
    workType employmentType userType salaryRange applyLink careerLink bodyUserId bodyCreatedBy
    (scrapeAndSummarizeCareerPage url ScrapeOutcome.thrown) (detectSpamJob SpamOutcome.thrown)
    user createdAtNow updatedAtNow sRead sGet sPut job st stOut h
  refine ⟨hscrape, rfl, ?_, ?_⟩
  · rw [hjob]
    show jsOrNull (scrapeAndSummarizeCareerPage url ScrapeOutcome.thrown) = none
    rw [hscrape]
    rfl
  · rw [hjob]
    rfl

/-- C6 witness: a concrete append whose enrichment calls both threw succeeds
and produces a record with null summary and isSpam false. -/
theorem claim_C6_witness :
    scrapeAndSummarizeCareerPage none ScrapeOutcome.thrown = none ∧
    detectSpamJob SpamOutcome.thrown = false ∧
    lateJob.companySummary = none ∧
    lateJob.isSpam = false :=
  claim_C6 none "A" "d" "C" none none none none none none none
    none JsValue.undef none ⟨7, "carol"⟩ "t0" "t0" blobA blobA blobA lateJob
    ⟨BlobContent.jobs [sampleJob1, lateJob], 1⟩
    (some ⟨BlobContent.jobs [sampleJob1, lateJob], 1⟩) (by decide)

/-- C9: whenever the append tail responds 201, the collection it committed is
exactly the collection its read returned with the one new record appended at
the end — the previously read records unchanged and in their original order,
and the new record last — and a subsequent read of the committed blob returns
precisely that. -/
theorem claim_C9
    (title description companyName : String)
    (location domain workType employmentType userType salaryRange applyLink careerLink :
      Option String)
    (bodyUserId : JsValue) (bodyCreatedBy : Option String)
    (companySummary : Option String) (isSpam : Bool)
    (user : AuthUser) (createdAtNow updatedAtNow : String)
    (sRead sGet sPut : Option BlobState)
    (job : Record) (st : BlobState) (stOut : Option BlobState)
    (h : createJobCore title description companyName location domain workType employmentType
      userType salaryRange applyLink careerLink bodyUserId bodyCreatedBy companySummary isSpam
      user createdAtNow updatedAtNow sRead sGet sPut = (HandlerResult.created job st, stOut)) :
    st.content = BlobContent.jobs (readJobsFromGithub (githubGet sRead) ++ [job]) ∧
    readJobsFromGithub (GetResult.ok st.content st.sha) =
      readJobsFromGithub (githubGet sRead) ++ [job] := by
  obtain ⟨-, hst, -⟩ := createJobCore_created title description companyName location domain
    workType employmentType userType salaryRange applyLink careerLink bodyUserId bodyCreatedBy
    companySummary isSpam user createdAtNow updatedAtNow sRead sGet sPut job st stOut h
  refine ⟨hst, ?_⟩
  rw [hst]
  rfl

/-- C9 witness: a concrete successful append against the one-record blob
commits that record followed by the new one. -/
theorem claim_C9_witness :
    (⟨BlobContent.jobs [sampleJob1, lateJob], 1⟩ : BlobState).content =
      BlobContent.jobs (readJobsFromGithub (githubGet blobA) ++ [lateJob]) ∧
    readJobsFromGithub
      (GetResult.ok (⟨BlobContent.jobs [sampleJob1, lateJob], 1⟩ : BlobState).content
        (⟨BlobContent.jobs [sampleJob1, lateJob], 1⟩ : BlobState).sha) =
      readJobsFromGithub (githubGet blobA) ++ [lateJob] :=
  claim_C9 "A" "d" "C" none none none none none none none none JsValue.undef none none false
    ⟨7, "carol"⟩ "t0" "t0" blobA blobA blobA lateJob
    ⟨BlobContent.jobs [sampleJob1, lateJob], 1⟩
    (some ⟨BlobContent.jobs [sampleJob1, lateJob], 1⟩) (by decide)

/-- C1 counterexample: a first append commits `sampleJob2` on top of `blobA`,
moving the blob to `blobB`. A second append that performed its read before
that commit still succeeds — its write helper re-fetches the current sha — and
the collection a subsequent readAll returns no longer contains `sampleJob2`,
a previously committed record. The two successful appends did silently
overwrite each other. -/
theorem claim_C1_counterexample :
    updateGithubJobs [sampleJob1, sampleJob2] blobA blobA =
      UpdateResult.ok ⟨BlobContent.jobs [sampleJob1, sampleJob2], 1⟩ ∧
    createJobCore "A" "d" "C" none none none none none none none none JsValue.undef none
      none false ⟨7, "carol"⟩ "t0" "t0" blobA blobB blobB =
      (HandlerResult.created lateJob ⟨BlobContent.jobs [sampleJob1, lateJob], 2⟩,
        some ⟨BlobContent.jobs [sampleJob1, lateJob], 2⟩) ∧
    sampleJob2 ∈ readJobsFromGithub (githubGet blobB) ∧
    sampleJob2 ∉ readJobsFromGithub
      (GetResult.ok (BlobContent.jobs [sampleJob1, lateJob]) 2) := by
  decide

/-- C1 amended: a successful append preserves every record that its own
initial read returned — the committed collection is that snapshot plus the
new record — but records committed by others between that read and the write
are silently lost, because the write succeeds with a version token re-fetched
at write time. -/
theorem claim_C1_amended
    (title description companyName : String)
    (location domain workType employmentType userType salaryRange applyLink careerLink :
      Option String)
    (bodyUserId : JsValue) (bodyCreatedBy : Option String)
    (companySummary : Option String) (isSpam : Bool)
    (user : AuthUser) (createdAtNow updatedAtNow : String)
    (sRead sGet sPut : Option BlobState)
    (job : Record) (st : BlobState) (stOut : Option BlobState)
    (h : createJobCore title description companyName location domain workType employmentType
      userType salaryRange applyLink careerLink bodyUserId bodyCreatedBy companySummary isSpam
      user createdAtNow updatedAtNow sRead sGet sPut = (HandlerResult.created job st, stOut)) :
    ∀ r ∈ readJobsFromGithub (githubGet sRead),
      r ∈ readJobsFromGithub (GetResult.ok st.content st.sha) := by
  obtain ⟨-, hst, -⟩ := createJobCore_created title description companyName location domain
    workType employmentType userType salaryRange applyLink careerLink bodyUserId bodyCreatedBy
    companySummary isSpam user createdAtNow updatedAtNow sRead sGet sPut job st stOut h
  intro r hr
  rw [hst]
  exact List.mem_append_left [job] hr

/-- C1 witness: in a concrete successful append, the record of the read
snapshot is still readable afterwards. -/
theorem claim_C1_witness :
    sampleJob1 ∈ readJobsFromGithub
      (GetResult.ok (⟨BlobContent.jobs [sampleJob1, lateJob], 1⟩ : BlobState).content
        (⟨BlobContent.jobs [sampleJob1, lateJob], 1⟩ : BlobState).sha) :=
  claim_C1_amended "A" "d" "C" none none none none none none none none JsValue.undef none
    none false ⟨7, "carol"⟩ "t0" "t0" blobA blobA blobA lateJob
    ⟨BlobContent.jobs [sampleJob1, lateJob], 1⟩
    (some ⟨BlobContent.jobs [sampleJob1, lateJob], 1⟩) (by decide) sampleJob1 (by decide)

/-- C2 counterexample: after the step-1 read of `blobA` (token 0) the blob
moved to `blobB` (token 1). A conditional write carrying the step-1 token
would be rejected against `blobB`, yet the append's write is accepted: the
token it supplied was the one its write helper re-fetched (1), not the token
obtained in step 1 — indeed the step-1 read discards its token entirely. -/
theorem claim_C2_counterexample :
    Option.map BlobState.sha blobA = some 0 ∧
    Option.map BlobState.sha blobB = some 1 ∧
    updateGithubJobsSuppliedSha blobB = some 1 ∧
    specPutAccepts (some 0) blobB = false ∧
    createJobCore "A" "d" "C" none none none none none none none none JsValue.undef none
      none false ⟨7, "carol"⟩ "t0" "t0" blobA blobB blobB =
      (HandlerResult.created lateJob ⟨BlobContent.jobs [sampleJob1, lateJob], 2⟩,
        some ⟨BlobContent.jobs [sampleJob1, lateJob], 2⟩) := by
  decide

/-- C2 amended: the version token supplied to the conditional write is the
sha obtained by the fresh read `updateGithubJobs` performs itself at write
time (step 1's read never returns its token), and the write is accepted
exactly when the blob is unchanged between that fresh read and the write. -/
theorem claim_C2_amended (jobs : List Record) (b1 b2 : BlobState) :
    updateGithubJobsSuppliedSha (some b1) = some b1.sha ∧
    (updateGithubJobs jobs (some b1) (some b2) =
        UpdateResult.ok ⟨BlobContent.jobs jobs, b2.sha + 1⟩ ↔ b2.sha = b1.sha) := by
  refine ⟨rfl, ?_, ?_⟩
  · intro h
    exact ((updateGithubJobs_ok_iff jobs b1 b2 _).mp h).1
  · intro h
    exact (updateGithubJobs_ok_iff jobs b1 b2 _).mpr ⟨h, rfl⟩

/-- C2 witness: the amended statement at a concrete write over `blobB`. -/
theorem claim_C2_witness :
    updateGithubJobsSuppliedSha (some ⟨BlobContent.jobs [sampleJob1, sampleJob2], 1⟩) =
      some (⟨BlobContent.jobs [sampleJob1, sampleJob2], 1⟩ : BlobState).sha ∧
    (updateGithubJobs [sampleJob1] (some ⟨BlobContent.jobs [sampleJob1, sampleJob2], 1⟩)
        (some ⟨BlobContent.jobs [sampleJob1, sampleJob2], 1⟩) =
      UpdateResult.ok ⟨BlobContent.jobs [sampleJob1],
        (⟨BlobContent.jobs [sampleJob1, sampleJob2], 1⟩ : BlobState).sha + 1⟩ ↔
      (⟨BlobContent.jobs [sampleJob1, sampleJob2], 1⟩ : BlobState).sha =
        (⟨BlobContent.jobs [sampleJob1, sampleJob2], 1⟩ : BlobState).sha) :=
  claim_C2_amended [sampleJob1] ⟨BlobContent.jobs [sampleJob1, sampleJob2], 1⟩
    ⟨BlobContent.jobs [sampleJob1, sampleJob2], 1⟩

/-- C4 counterexample: with the blob moving from sha 0 to sha 1 between the
write helper's own GET and its PUT, the very first conditional-write failure
is thrown to the caller — one PUT attempt, no retry — and the append surfaces
it as the 500 catch response. No ConcurrentModificationError exists in the
code, and the caller observes the raw conflict on attempt one. -/
theorem claim_C4_counterexample :
    updateGithubJobs [sampleJob1, lateJob] blobA blobB =
      UpdateResult.thrown UpdateError.versionConflict ∧
    updateGithubJobsPutAttempts blobA = 1 ∧
    createJobCore "A" "d" "C" none none none none none none none none JsValue.undef none
      none false ⟨7, "carol"⟩ "t0" "t0" blobA blobA blobB =
      (HandlerResult.serverError, blobB) := by
  decide

/-- C4 amended: the append performs exactly one conditional-write attempt; a
version conflict is not retried but thrown, and the handler surfaces it to
the caller as the 500 catch response with the blob unchanged. -/
theorem claim_C4_amended
    (title description companyName : String)
    (location domain workType employmentType userType salaryRange applyLink careerLink :
      Option String)
    (bodyUserId : JsValue) (bodyCreatedBy : Option String)
    (companySummary : Option String) (isSpam : Bool)
    (user : AuthUser) (createdAtNow updatedAtNow : String)
    (sRead : Option BlobState) (b1 b2 : BlobState)
    (jobs : List Record)
    (hconf : b2.sha ≠ b1.sha) :
    updateGithubJobs jobs (some b1) (some b2) =
      UpdateResult.thrown UpdateError.versionConflict ∧
    updateGithubJobsPutAttempts (some b1) = 1 ∧
    createJobCore title description companyName location domain workType employmentType
      userType salaryRange applyLink careerLink bodyUserId bodyCreatedBy companySummary isSpam
      user createdAtNow updatedAtNow sRead (some b1) (some b2) =
      (HandlerResult.serverError, some b2) := by
  have hu : ∀ js : List Record, updateGithubJobs js (some b1) (some b2) =
      UpdateResult.thrown UpdateError.versionConflict := by
    intro js
    simp only [updateGithubJobs]
    rw [if_neg hconf]
  refine ⟨hu jobs, rfl, ?_⟩
  simp only [createJobCore]
  rw [hu]

/-- C4 witness: the amended statement at a concrete conflicting write. -/
theorem claim_C4_witness :
    updateGithubJobs [sampleJob1] (some ⟨BlobContent.jobs [sampleJob1], 0⟩)
      (some ⟨BlobContent.jobs [sampleJob1, sampleJob2], 1⟩) =
      UpdateResult.thrown UpdateError.versionConflict ∧
    updateGithubJobsPutAttempts (some ⟨BlobContent.jobs [sampleJob1], 0⟩) = 1 ∧
    createJobCore "A" "d" "C" none none none none none none none none JsValue.undef none
      none false ⟨7, "carol"⟩ "t0" "t0" blobA (some ⟨BlobContent.jobs [sampleJob1], 0⟩)
      (some ⟨BlobContent.jobs [sampleJob1, sampleJob2], 1⟩) =
      (HandlerResult.serverError, some ⟨BlobContent.jobs [sampleJob1, sampleJob2], 1⟩) :=
  claim_C4_amended "A" "d" "C" none none none none none none none none JsValue.undef none
    none false ⟨7, "carol"⟩ "t0" "t0" blobA ⟨BlobContent.jobs [sampleJob1], 0⟩
    ⟨BlobContent.jobs [sampleJob1, sampleJob2], 1⟩ [sampleJob1] (by decide)

end Server
